import Mathlib

/-!
Verification of the bothub-nlp session-pool server (`src/app/server.py`),
the interpreter cache (`src/bothub_nlp_nlu_worker/bothub_nlp_nlu/utils.py`)
and the evaluation helpers
(`src/bothub-nlp-nlu-worker/bothub_nlp_nlu_worker/bothub_nlp_nlu/evaluate.py`),
as a shallow embedding: Python dictionaries become association lists or
function maps, redis becomes explicit fields of a state record, raised
exceptions become `Except` values carrying the store state persisted up to
the raise, and timestamps are natural-number seconds.
-/

namespace BothubNlp

/-! ## evaluate.py: `remove_empty_intent_examples` -/

/-- One intent result, as consumed by `remove_empty_intent_examples`:
a named tuple with `target`, `prediction` (both optional strings),
`message` and `confidence`. -/
structure IntentResult where
  message : String
  target : Option String
  prediction : Option String
  confidence : Nat
  deriving DecidableEq, Repr

/-- `r._replace(prediction="no predicted")` applied when `r.prediction is None`. -/
def fixPrediction (r : IntentResult) : IntentResult :=
  if r.prediction = none then { r with prediction := some "no predicted" } else r

/-- `remove_empty_intent_examples` from evaluate.py: walks the results in
order, replaces a `None` prediction by `"no predicted"`, and keeps exactly
the results whose target is neither `None` nor the empty string. -/
def remove_empty_intent_examples : List IntentResult → List IntentResult
  | [] => []
  | r :: rest =>
    let r := fixPrediction r
    if r.target ≠ some "" ∧ r.target ≠ none then
      r :: remove_empty_intent_examples rest
    else
      remove_empty_intent_examples rest

/-! ## utils.py: `UpdateInterpreters.get` -/

/-- The fields of the backend response to `request_backend_parse_nlu` that
`UpdateInterpreters.get` reads. -/
structure BackendResponse where
  version_id : String
  total_training_end : String
  language : String
  repository_uuid : String
  deriving DecidableEq, Repr

/-- The cache key `repository_name` built in `UpdateInterpreters.get`. -/
def repositoryName (r : BackendResponse) : String :=
  r.version_id ++ "_" ++ r.total_training_end ++ "_" ++ r.language

/-- Python dict assignment `d[k] = v` on an insertion-ordered association
list: overwrite in place if the key is present, append otherwise. -/
def dictSet {α : Type} (d : List (String × α)) (k : String) (v : α) :
    List (String × α) :=
  if d.any (fun kv => kv.1 = k) then
    d.map (fun kv => if kv.1 = k then (k, v) else kv)
  else
    d ++ [(k, v)]

/-- `UpdateInterpreters.get`, with the backend request and the
persistor-retrieve-then-load step abstracted as the deterministic oracles
`requestBackend` and `loadInterpreter` (interpreters are identified by
naturals).  The tail call `self.get(repository_version,
repository_authorization)` (which re-enters with `use_cache=True`) is
embedded with explicit fuel; `none` stands for running out of fuel. -/
def uiGet (requestBackend : String → String → BackendResponse)
    (loadInterpreter : String → String → Nat) :
    Nat → List (String × Nat) → String → String → Bool →
    Option (Nat × List (String × Nat))
  | 0, _, _, _, _ => none
  | fuel + 1, interpreters, repository_version, repository_authorization,
      use_cache =>
    let update_request := requestBackend repository_version
      repository_authorization
    let repository_name := repositoryName update_request
    match interpreters.lookup repository_name with
    | some interpreter =>
      if use_cache then
        some (interpreter, interpreters)
      else
        uiGet requestBackend loadInterpreter fuel
          (dictSet interpreters repository_name
            (loadInterpreter repository_version repository_authorization))
          repository_version repository_authorization true
    | none =>
      uiGet requestBackend loadInterpreter fuel
        (dictSet interpreters repository_name
          (loadInterpreter repository_version repository_authorization))
        repository_version repository_authorization true

/-! ## server.py: `BotManager._set_usage_memory` -/

/-- The membership update `_set_usage_memory` applies to the split
`SERVERS_INSTANCES_AVAILABLES` list: append the instance ip when memory
usage is at most 80 percent and it is absent, remove its first occurrence
when usage is above 80 percent and it is present. -/
def set_usage_memory (instance_ip : String) (usage_memory : ℚ)
    (update_servers : List String) : List String :=
  if usage_memory ≤ 80 then
    if instance_ip ∈ update_servers then update_servers
    else update_servers ++ [instance_ip]
  else
    if instance_ip ∈ update_servers then update_servers.erase instance_ip
    else update_servers

/-! ## server.py: the `BotManager` state

One `SessionEntry` per pool slot mirrors the `bot_data` dict built by
`_start_bot_process`: the worker handle (identified by a fresh natural),
the two queues, the two events and `last_time_update`.  The worker's loaded
model is kept as the (de)serialized string it was materialized from —
`cloudpickle.dumps`/`loads` are embedded as the identity on strings. -/

structure SessionEntry where
  workerId : Nat
  model : String
  questionsQueue : List String
  answersQueue : List String
  newQuestionEvent : Bool
  newAnswerEvent : Bool
  lastTimeUpdate : Nat
  deriving DecidableEq, Repr

/-- The observable state a `BotManager` instance acts on: its in-process
`_pool` (an insertion-ordered dict), the redis keys it touches
(plain-uuid snapshot keys, `BOT-` ownership keys, the split
`SERVER-<ip>` list, the split `SERVERS_INSTANCES_AVAILABLES` list, the
`SERVER-ALIVE-<ip>` stamp), the origin database of serialized bots, the
supply of fresh worker ids and the log of terminated workers. -/
structure ManagerState where
  pool : List (String × SessionEntry)
  redisBots : String → Option String
  redisOwner : String → Option String
  serverBots : List String
  availables : List String
  aliveStamp : Nat
  origin : String → Option String
  nextWorkerId : Nat
  instanceIp : String
  terminatedWorkers : List Nat

/-- Point update of a function map (a single-key redis `set`). -/
def mapSet (m : String → Option String) (k v : String) :
    String → Option String :=
  fun x => if x = k then some v else m x

/-- Point deletion from a function map (a single-key redis `delete`). -/
def mapDel (m : String → Option String) (k : String) :
    String → Option String :=
  fun x => if x = k then none else m x

/-- `_start_bot_process`: build fresh queues and events, spawn a worker
from the deserialized bot, stamp `last_time_update` with the current
time.  Returns the new `bot_data` entry and the state with the worker id
consumed. -/
def start_bot_process (now : Nat) (s : ManagerState) (bot : String) :
    SessionEntry × ManagerState :=
  ({ workerId := s.nextWorkerId
     model := bot
     questionsQueue := []
     answersQueue := []
     newQuestionEvent := false
     newAnswerEvent := false
     lastTimeUpdate := now },
   { s with nextWorkerId := s.nextWorkerId + 1 })

/-- `_set_bot_in_instance_redis`: set `BOT-<uuid>` to this instance's ip
(with TTL), then append `BOT-<uuid>` to the split `SERVER-<ip>` list and
write it back.  `ok1` and `ok2` are whether the first and second redis
`set` succeed; a falsy `set` reaches the trailing
`raise ValueError("Error save bot in instance redis")`, embedded as
`Except.error` carrying the state persisted up to the raise. -/
def set_bot_in_instance_redis (ok1 ok2 : Bool) (s : ManagerState)
    (bot_uuid : String) : Except ManagerState ManagerState :=
  if ok1 then
    let s := { s with redisOwner := mapSet s.redisOwner ("BOT-" ++ bot_uuid)
                        s.instanceIp }
    let server_bots := s.serverBots ++ ["BOT-" ++ bot_uuid]
    if ok2 then
      Except.ok { s with serverBots := server_bots }
    else
      Except.error s
  else
    Except.error s

/-- `_remove_bot_instance_redis`: `delete` of `BOT-<uuid>` returns the
number of deleted keys, so its truthiness is exactly the key's presence;
on success the entry is removed from the split `SERVER-<ip>` list
(Python `list.remove` raises when absent, and removes only the first
occurrence) and the list is written back.  A falsy delete reaches
`raise ValueError("Error remove bot in instance redis")`. -/
def remove_bot_instance_redis (s : ManagerState) (bot_uuid : String) :
    Except ManagerState ManagerState :=
  if (s.redisOwner ("BOT-" ++ bot_uuid)).isSome then
    let s := { s with redisOwner := mapDel s.redisOwner ("BOT-" ++ bot_uuid) }
    if ("BOT-" ++ bot_uuid) ∈ s.serverBots then
      Except.ok { s with serverBots := s.serverBots.erase ("BOT-" ++ bot_uuid) }
    else
      Except.error s
  else
    Except.error s

/-- `_get_bot_data`: tier 1 is the in-process pool, tier 2 the redis
snapshot key (deserialize, start a worker, insert, publish ownership),
tier 3 the origin database (`Bot.get` raises `DoesNotExist` on a missing
uuid, embedded as `Except.error` with the untouched state; otherwise the
snapshot is written back to redis before the worker is started, the pool
insert and the ownership publish).  Redis writes are taken as succeeding
on this path. -/
def get_bot_data (now : Nat) (s : ManagerState) (bot_uuid : String) :
    Except ManagerState (SessionEntry × ManagerState) :=
  match s.pool.lookup bot_uuid with
  | some bot_data => Except.ok (bot_data, s)
  | none =>
    match s.redisBots bot_uuid with
    | some redis_bot =>
      let (bot_data, s) := start_bot_process now s redis_bot
      let s := { s with pool := dictSet s.pool bot_uuid bot_data }
      match set_bot_in_instance_redis true true s bot_uuid with
      | Except.ok s => Except.ok (bot_data, s)
      | Except.error s => Except.error s
    | none =>
      match s.origin bot_uuid with
      | none => Except.error s
      | some bot =>
        let s := { s with redisBots := mapSet s.redisBots bot_uuid bot }
        let (bot_data, s) := start_bot_process now s bot
        let s := { s with pool := dictSet s.pool bot_uuid bot_data }
        match set_bot_in_instance_redis true true s bot_uuid with
        | Except.ok s => Except.ok (bot_data, s)
        | Except.error s => Except.error s

/-- One round of the `RasaBotProcess` main loop, run between the caller's
`new_question_event.set()` and its `new_answer_event.wait()` returning:
take one question off the inbound queue, answer it with the opaque
engine, put the answer on the outbound queue, set `new_answer_event`,
clear `new_question_event`. -/
def workerStep (engine : String → String) (e : SessionEntry) : SessionEntry :=
  match e.questionsQueue with
  | [] => e
  | q :: rest =>
    { e with questionsQueue := rest
             answersQueue := e.answersQueue ++ [engine q]
             newAnswerEvent := true
             newQuestionEvent := false }

/-- `BotManager.ask`: resolve the entry (any getter call resolves through
`_get_bot_data`), enqueue the question, set `new_question_event`, stamp
`last_time_update` with the current time, block on `new_answer_event`
(during which the worker runs one `workerStep`), clear it, and dequeue
one answer.  An empty answers queue would leave `Queue.get` blocked
forever, embedded as `Except.error`. -/
def ask (now : Nat) (engine : String → String) (s : ManagerState)
    (question bot_uuid : String) : Except ManagerState (String × ManagerState) :=
  match get_bot_data now s bot_uuid with
  | Except.error s => Except.error s
  | Except.ok (e, s) =>
    let e := { e with questionsQueue := e.questionsQueue ++ [question]
                      newQuestionEvent := true
                      lastTimeUpdate := now }
    let e := workerStep engine e
    let e := { e with newAnswerEvent := false }
    match e.answersQueue with
    | [] => Except.error { s with pool := dictSet s.pool bot_uuid e }
    | answer :: rest =>
      Except.ok (answer,
        { s with pool := dictSet s.pool bot_uuid { e with answersQueue := rest } })

/-- The body of `garbage_collector`'s `for` loop over `self._pool.items()`:
a survivor (idle for strictly less than 5 minutes = 300 seconds) gets its
ownership refreshed by `_set_bot_in_instance_redis` and goes into
`new_pool`; anything else is removed from redis and its worker
terminated.  An exception from `_remove_bot_instance_redis` propagates,
aborting the loop. -/
def gcLoop (now : Nat) (s : ManagerState)
    (new_pool : List (String × SessionEntry)) :
    List (String × SessionEntry) →
    Except ManagerState (ManagerState × List (String × SessionEntry))
  | [] => Except.ok (s, new_pool)
  | (uuid, bot_instance) :: rest =>
    if ¬ (now - bot_instance.lastTimeUpdate ≥ 300) then
      match set_bot_in_instance_redis true true s uuid with
      | Except.error s => Except.error s
      | Except.ok s =>
        gcLoop now s (new_pool ++ [(uuid, bot_instance)]) rest
    else
      match remove_bot_instance_redis s uuid with
      | Except.error s => Except.error s
      | Except.ok s =>
        gcLoop now
          { s with terminatedWorkers :=
              s.terminatedWorkers ++ [bot_instance.workerId] }
          new_pool rest

/-- `garbage_collector`: refresh `SERVER-ALIVE-<ip>`, sweep the pool,
swap in the surviving map, republish availability from current memory
usage, and re-arm the 60-second timer.  The returned boolean is whether
`self.start_garbage_collector()` was reached; an exception escaping the
sweep leaves `self._pool` untouched (the swap assignment is never
executed) and the timer dead. -/
def garbage_collector (now : Nat) (usage_memory : ℚ) (s : ManagerState) :
    ManagerState × Bool :=
  let s := { s with aliveStamp := now }
  match gcLoop now s [] s.pool with
  | Except.error s' => ({ s' with pool := s.pool }, false)
  | Except.ok (s', new_pool) =>
    let s' := { s' with pool := new_pool }
    let s' := { s' with availables :=
        set_usage_memory s'.instanceIp usage_memory s'.availables }
    (s', true)

/-! ## Helper lemmas -/

theorem lookup_dictSet {α : Type} (d : List (String × α)) (k : String) (v : α) :
    (dictSet d k v).lookup k = some v := by
  induction d with
  | nil => simp [dictSet, List.lookup]
  | cons hd tl ih =>
    by_cases hk : hd.1 = k
    · simp [dictSet, hk, List.lookup]
    · by_cases ht : tl.any (fun kv => kv.1 = k)
      · have hd' : dictSet (hd :: tl) k v =
            hd :: dictSet tl k v := by
          simp [dictSet, hk, ht]
        rw [hd', List.lookup]
        have : (k == hd.1) = false := by
          simp [Ne.symm hk]
        simp [this, ih]
      · have hd' : dictSet (hd :: tl) k v =
            hd :: dictSet tl k v := by
          simp [dictSet, hk, ht]
        rw [hd', List.lookup]
        have : (k == hd.1) = false := by
          simp [Ne.symm hk]
        simp [this, ih]

theorem count_le_one_not_mem_erase {l : List String} {a : String}
    (h : l.count a ≤ 1) : a ∉ l.erase a := by
  intro hmem
  have hc := List.count_pos_iff.mpr hmem
  rw [List.count_erase_self] at hc
  omega

/-! ## Claim theorems -/

/-- C10: `remove_empty_intent_examples` returns exactly the results whose
target is neither `None` nor the empty string, in their original order,
each with its prediction replaced by `"no predicted"` when it was `None`
and all other fields unchanged. -/
theorem remove_empty_intent_examples_spec (l : List IntentResult) :
    remove_empty_intent_examples l =
      (l.filter (fun r => r.target ≠ some "" ∧ r.target ≠ none)).map
        (fun r =>
          { r with prediction :=
              if r.prediction = none then some "no predicted"
              else r.prediction }) := by
  induction l with
  | nil => rfl
  | cons r rest ih =>
    have htarget : (fixPrediction r).target = r.target := by
      by_cases h : r.prediction = none <;> simp [fixPrediction, h]
    by_cases hkeep : r.target ≠ some "" ∧ r.target ≠ none
    · have : fixPrediction r =
          { r with prediction :=
              if r.prediction = none then some "no predicted"
              else r.prediction } := by
        by_cases h : r.prediction = none <;> simp [fixPrediction, h]
      simp [remove_empty_intent_examples, htarget, hkeep, ih, this]
    · simp [remove_empty_intent_examples, htarget, hkeep, ih]

/-- C7: `_set_usage_memory`'s availability update leaves the instance in
the `SERVERS_INSTANCES_AVAILABLES` list exactly when memory usage is at
most 80 percent, and repeating the update at the same usage level leaves
the list itself unchanged (no duplicate appended, no error on removing an
absent entry), provided the instance is listed at most once to begin
with. -/
theorem set_usage_memory_threshold_idempotent (instance_ip : String)
    (usage_memory : ℚ) (update_servers : List String)
    (h : update_servers.count instance_ip ≤ 1) :
    (instance_ip ∈ set_usage_memory instance_ip usage_memory update_servers ↔
      usage_memory ≤ 80) ∧
    set_usage_memory instance_ip usage_memory
        (set_usage_memory instance_ip usage_memory update_servers) =
      set_usage_memory instance_ip usage_memory update_servers := by
  by_cases hu : usage_memory ≤ 80
  · by_cases hm : instance_ip ∈ update_servers
    · simp [set_usage_memory, hu, hm]
    · simp [set_usage_memory, hu, hm]
  · by_cases hm : instance_ip ∈ update_servers
    · have habs : instance_ip ∉ update_servers.erase instance_ip :=
        count_le_one_not_mem_erase h
      simp [set_usage_memory, hu, hm, habs]
    · simp [set_usage_memory, hu, hm]

/-- Witness for C7 at a concrete list, usage level 50 then 90. -/
theorem set_usage_memory_threshold_idempotent_witness :
    (["10.0.0.2"].count "10.0.0.1" ≤ 1 ∧
      (("10.0.0.1" ∈ set_usage_memory "10.0.0.1" 50 ["10.0.0.2"] ↔
          (50 : ℚ) ≤ 80) ∧
        set_usage_memory "10.0.0.1" 50
            (set_usage_memory "10.0.0.1" 50 ["10.0.0.2"]) =
          set_usage_memory "10.0.0.1" 50 ["10.0.0.2"])) ∧
    (["10.0.0.1"].count "10.0.0.1" ≤ 1 ∧
      (("10.0.0.1" ∈ set_usage_memory "10.0.0.1" 90 ["10.0.0.1"] ↔
          (90 : ℚ) ≤ 80) ∧
        set_usage_memory "10.0.0.1" 90
            (set_usage_memory "10.0.0.1" 90 ["10.0.0.1"]) =
          set_usage_memory "10.0.0.1" 90 ["10.0.0.1"])) :=
  ⟨⟨by decide,
    set_usage_memory_threshold_idempotent "10.0.0.1" 50 ["10.0.0.2"]
      (by decide)⟩,
   ⟨by decide,
    set_usage_memory_threshold_idempotent "10.0.0.1" 90 ["10.0.0.1"]
      (by decide)⟩⟩

/-- C4: a failed first redis write in `_set_bot_in_instance_redis` raises
and leaves the whole state — in particular the `SERVER-<ip>` session
list — unchanged; when both writes succeed the call returns normally with
the key appended; and a failure of either write raises, never leaving a
partial `SERVER-<ip>` append behind. -/
theorem set_bot_in_instance_redis_failure_atomicity (s : ManagerState)
    (bot_uuid : String) :
    (∀ ok2, set_bot_in_instance_redis false ok2 s bot_uuid =
        Except.error s) ∧
    (∃ s', set_bot_in_instance_redis true true s bot_uuid =
        Except.ok s' ∧
      s'.serverBots = s.serverBots ++ ["BOT-" ++ bot_uuid] ∧
      s'.redisOwner ("BOT-" ++ bot_uuid) = some s.instanceIp) ∧
    (∀ ok1 ok2, ok1 = false ∨ ok2 = false →
        ∃ s_err, set_bot_in_instance_redis ok1 ok2 s bot_uuid =
            Except.error s_err ∧
          s_err.serverBots = s.serverBots) := by
  refine ⟨fun ok2 => rfl, ⟨_, rfl, rfl, ?_⟩, ?_⟩
  · simp [mapSet]
  · rintro ok1 ok2 (h | h) <;> subst h
    · exact ⟨s, rfl, rfl⟩
    · cases ok1
      · exact ⟨s, rfl, rfl⟩
      · refine ⟨_, rfl, rfl⟩

/-! ## Concrete states used to instantiate the theorems -/

/-- A concrete manager state: empty pool, a redis snapshot for `"u2"`,
an origin-store definition for `"u1"`, nothing else. -/
def wState : ManagerState :=
  { pool := []
    redisBots := fun u => if u = "u2" then some "snap2" else none
    redisOwner := fun _ => none
    serverBots := []
    availables := []
    aliveStamp := 0
    origin := fun u => if u = "u1" then some "bot1" else none
    nextWorkerId := 0
    instanceIp := "10.0.0.1"
    terminatedWorkers := [] }

/-- A quiescent pool entry: empty queues, both events clear. -/
def wEntry : SessionEntry :=
  { workerId := 3
    model := "m"
    questionsQueue := []
    answersQueue := []
    newQuestionEvent := false
    newAnswerEvent := false
    lastTimeUpdate := 2 }

/-- `wState` with `"u1"` resident in the local pool. -/
def wPoolState : ManagerState := { wState with pool := [("u1", wEntry)] }

/-- Witness for C4: forcing the first coordination-store write to fail
makes the claim raise with the session list untouched. -/
theorem set_bot_in_instance_redis_failure_atomicity_witness :
    (false = false ∨ true = false) ∧
    ∃ s_err, set_bot_in_instance_redis false true wState "u1" =
        Except.error s_err ∧
      s_err.serverBots = wState.serverBots :=
  ⟨Or.inl rfl,
   (set_bot_in_instance_redis_failure_atomicity wState "u1").2.2 false true
     (Or.inl rfl)⟩

/-- C8: a session key absent from the local pool, the redis snapshot tier
and the origin store makes `_get_bot_data` raise (the `Bot.get`
`DoesNotExist`) with the state — in particular the pool — unchanged, and
`ask` surfaces the same error to the caller without retrying. -/
theorem get_bot_data_not_found (now : Nat) (s : ManagerState)
    (bot_uuid : String)
    (h1 : s.pool.lookup bot_uuid = none)
    (h2 : s.redisBots bot_uuid = none)
    (h3 : s.origin bot_uuid = none) :
    get_bot_data now s bot_uuid = Except.error s ∧
    ∀ engine question,
      ask now engine s question bot_uuid = Except.error s := by
  have hg : get_bot_data now s bot_uuid = Except.error s := by
    simp [get_bot_data, h1, h2, h3]
  exact ⟨hg, fun engine question => by simp [ask, hg]⟩

/-- Witness for C8 at the key `"zz"`, unknown to every tier of `wState`. -/
theorem get_bot_data_not_found_witness :
    (wState.pool.lookup "zz" = none ∧ wState.redisBots "zz" = none ∧
      wState.origin "zz" = none) ∧
    (get_bot_data 5 wState "zz" = Except.error wState ∧
      ∀ engine question,
        ask 5 engine wState question "zz" = Except.error wState) :=
  ⟨⟨rfl, rfl, rfl⟩, get_bot_data_not_found 5 wState "zz" rfl rfl rfl⟩

/-- C9: with `use_cache` true and the key (built from the backend
response's version id, training end and language) already cached,
`UpdateInterpreters.get` returns the cached interpreter with no model
retrieval (the result does not depend on the loader); otherwise it loads
a fresh model, stores it under that key and returns it; in every case the
returned interpreter is the cache's entry for that key after the call. -/
theorem uiGet_cache_spec (requestBackend : String → String → BackendResponse)
    (loadInterpreter : String → String → Nat) (fuel : Nat)
    (interpreters : List (String × Nat))
    (repository_version repository_authorization : String)
    (use_cache : Bool) :
    (∀ i, interpreters.lookup
        (repositoryName
          (requestBackend repository_version repository_authorization)) =
          some i →
      ∀ load',
        uiGet requestBackend load' (fuel + 2) interpreters
            repository_version repository_authorization true =
          some (i, interpreters)) ∧
    (interpreters.lookup
        (repositoryName
          (requestBackend repository_version repository_authorization)) =
          none ∨ use_cache = false →
      uiGet requestBackend loadInterpreter (fuel + 2) interpreters
          repository_version repository_authorization use_cache =
        some (loadInterpreter repository_version repository_authorization,
          dictSet interpreters
            (repositoryName
              (requestBackend repository_version repository_authorization))
            (loadInterpreter repository_version
              repository_authorization))) ∧
    (∃ i cache',
      uiGet requestBackend loadInterpreter (fuel + 2) interpreters
          repository_version repository_authorization use_cache =
        some (i, cache') ∧
      cache'.lookup
          (repositoryName
            (requestBackend repository_version repository_authorization)) =
        some i) := by
  have part1 : ∀ i, interpreters.lookup
      (repositoryName
        (requestBackend repository_version repository_authorization)) =
        some i →
      ∀ load',
        uiGet requestBackend load' (fuel + 2) interpreters
            repository_version repository_authorization true =
          some (i, interpreters) := by
    intro i hi load'
    simp [uiGet, hi]
  have part2 : interpreters.lookup
      (repositoryName
        (requestBackend repository_version repository_authorization)) =
        none ∨ use_cache = false →
      uiGet requestBackend loadInterpreter (fuel + 2) interpreters
          repository_version repository_authorization use_cache =
        some (loadInterpreter repository_version repository_authorization,
          dictSet interpreters
            (repositoryName
              (requestBackend repository_version repository_authorization))
            (loadInterpreter repository_version
              repository_authorization)) := by
    intro h
    rcases h with h | h
    · cases use_cache <;> simp [uiGet, h, lookup_dictSet]
    · subst h
      cases hl : interpreters.lookup
          (repositoryName
            (requestBackend repository_version repository_authorization))
      · simp [uiGet, hl, lookup_dictSet]
      · simp [uiGet, hl, lookup_dictSet]
  refine ⟨part1, part2, ?_⟩
  rcases Bool.eq_false_or_eq_true use_cache with huc | huc
  · subst huc
    cases hl : interpreters.lookup
        (repositoryName
          (requestBackend repository_version repository_authorization))
    · exact ⟨_, _, part2 (Or.inl hl), lookup_dictSet _ _ _⟩
    · exact ⟨_, interpreters, part1 _ hl loadInterpreter, hl⟩
  · subst huc
    exact ⟨_, _, part2 (Or.inr rfl), lookup_dictSet _ _ _⟩

/-- A concrete deterministic backend response oracle. -/
def wBackend : String → String → BackendResponse := fun v a =>
  { version_id := v
    total_training_end := "2020"
    language := a
    repository_uuid := "r" }

/-- Witness for C9: an empty cache forces a load, and the result is
stored under the response-derived key. -/
theorem uiGet_cache_spec_witness :
    ((([] : List (String × Nat)).lookup
        (repositoryName (wBackend "v1" "auth")) = none ∨ true = false) ∧
      uiGet wBackend (fun _ _ => 7) 2 [] "v1" "auth" true =
        some (7, dictSet [] (repositoryName (wBackend "v1" "auth")) 7)) :=
  ⟨Or.inl rfl,
   (uiGet_cache_spec wBackend (fun _ _ => 7) 0 [] "v1" "auth" true).2.1
     (Or.inl rfl)⟩

/-- C1: `_get_bot_data` consults the three tiers in order with the first
hit winning: a key in the local pool is served by the existing entry with
the state untouched; a key absent locally but with a redis snapshot is
deserialized into a fresh worker, inserted into the pool and its
ownership published, without consulting the origin store (the result is
the same for every origin store) and without rewriting the snapshot; only
when both miss is the origin store read, and then the snapshot is written
back to redis and the fresh worker inserted and published. -/
theorem get_bot_data_tier_order (now : Nat) (s : ManagerState)
    (bot_uuid : String) :
    (∀ bot_data, s.pool.lookup bot_uuid = some bot_data →
      get_bot_data now s bot_uuid = Except.ok (bot_data, s)) ∧
    (∀ redis_bot, s.pool.lookup bot_uuid = none →
      s.redisBots bot_uuid = some redis_bot →
      ∃ bot_data s',
        get_bot_data now s bot_uuid = Except.ok (bot_data, s') ∧
        bot_data.workerId = s.nextWorkerId ∧
        bot_data.model = redis_bot ∧
        s'.pool.lookup bot_uuid = some bot_data ∧
        s'.redisOwner ("BOT-" ++ bot_uuid) = some s.instanceIp ∧
        s'.serverBots = s.serverBots ++ ["BOT-" ++ bot_uuid] ∧
        s'.redisBots = s.redisBots ∧
        (∀ origin',
          get_bot_data now { s with origin := origin' } bot_uuid =
            Except.ok (bot_data, { s' with origin := origin' }))) ∧
    (∀ bot, s.pool.lookup bot_uuid = none →
      s.redisBots bot_uuid = none →
      s.origin bot_uuid = some bot →
      ∃ bot_data s',
        get_bot_data now s bot_uuid = Except.ok (bot_data, s') ∧
        bot_data.workerId = s.nextWorkerId ∧
        bot_data.model = bot ∧
        s'.redisBots bot_uuid = some bot ∧
        s'.pool.lookup bot_uuid = some bot_data ∧
        s'.redisOwner ("BOT-" ++ bot_uuid) = some s.instanceIp ∧
        s'.serverBots = s.serverBots ++ ["BOT-" ++ bot_uuid]) := by
  refine ⟨?_, ?_, ?_⟩
  · intro bot_data h
    simp [get_bot_data, h]
  · intro redis_bot h1 h2
    refine ⟨{ workerId := s.nextWorkerId
              model := redis_bot
              questionsQueue := []
              answersQueue := []
              newQuestionEvent := false
              newAnswerEvent := false
              lastTimeUpdate := now },
            { s with
                nextWorkerId := s.nextWorkerId + 1
                pool := (dictSet s.pool bot_uuid
                  { workerId := s.nextWorkerId
                    model := redis_bot
                    questionsQueue := []
                    answersQueue := []
                    newQuestionEvent := false
                    newAnswerEvent := false
                    lastTimeUpdate := now })
                redisOwner := mapSet s.redisOwner ("BOT-" ++ bot_uuid)
                  s.instanceIp
                serverBots := s.serverBots ++ ["BOT-" ++ bot_uuid] },
            ?_, rfl, rfl, lookup_dictSet _ _ _, by simp [mapSet], rfl, rfl,
            ?_⟩
    · simp [get_bot_data, h1, h2, start_bot_process,
        set_bot_in_instance_redis]
    · intro origin'
      simp [get_bot_data, h1, h2, start_bot_process,
        set_bot_in_instance_redis]
  · intro bot h1 h2 h3
    refine ⟨{ workerId := s.nextWorkerId
              model := bot
              questionsQueue := []
              answersQueue := []
              newQuestionEvent := false
              newAnswerEvent := false
              lastTimeUpdate := now },
            { s with
                redisBots := mapSet s.redisBots bot_uuid bot
                nextWorkerId := s.nextWorkerId + 1
                pool := (dictSet s.pool bot_uuid
                  { workerId := s.nextWorkerId
                    model := bot
                    questionsQueue := []
                    answersQueue := []
                    newQuestionEvent := false
                    newAnswerEvent := false
                    lastTimeUpdate := now })
                redisOwner := mapSet s.redisOwner ("BOT-" ++ bot_uuid)
                  s.instanceIp
                serverBots := s.serverBots ++ ["BOT-" ++ bot_uuid] },
            ?_, rfl, rfl, by simp [mapSet], lookup_dictSet _ _ _,
            by simp [mapSet], rfl⟩
    simp [get_bot_data, h1, h2, h3, start_bot_process,
      set_bot_in_instance_redis]

/-- Witness for C1 at the key `"u2"`: absent from `wState`'s pool but
present as a redis snapshot, so resolution goes through tier 2. -/
theorem get_bot_data_tier_order_witness :
    (wState.pool.lookup "u2" = none ∧ wState.redisBots "u2" = some "snap2") ∧
    ∃ bot_data s',
      get_bot_data 7 wState "u2" = Except.ok (bot_data, s') ∧
      bot_data.workerId = wState.nextWorkerId ∧
      bot_data.model = "snap2" ∧
      s'.pool.lookup "u2" = some bot_data ∧
      s'.redisOwner ("BOT-" ++ "u2") = some wState.instanceIp ∧
      s'.serverBots = wState.serverBots ++ ["BOT-" ++ "u2"] ∧
      s'.redisBots = wState.redisBots ∧
      (∀ origin',
        get_bot_data 7 { wState with origin := origin' } "u2" =
          Except.ok (bot_data, { s' with origin := origin' })) :=
  ⟨⟨rfl, rfl⟩, (get_bot_data_tier_order 7 wState "u2").2.1 "snap2" rfl rfl⟩

/-- C2: `ask` on a resident quiescent session enqueues the question,
raises the question-ready event, stamps `last_time_update` with the
current time before blocking, and after the worker's turn clears the
answer-ready event and returns the single dequeued answer, leaving the
entry quiescent again with its timestamp refreshed; resolution alone (a
pool hit in `_get_bot_data`) returns the state — hence `last_time_update`
— unchanged. -/
theorem ask_protocol (now : Nat) (engine : String → String)
    (s : ManagerState) (question bot_uuid : String) (e : SessionEntry)
    (hpool : s.pool.lookup bot_uuid = some e)
    (hq : e.questionsQueue = []) (ha : e.answersQueue = []) :
    ask now engine s question bot_uuid =
      Except.ok (engine question,
        { s with pool := (dictSet s.pool bot_uuid
            { e with questionsQueue := []
                     answersQueue := []
                     newQuestionEvent := false
                     newAnswerEvent := false
                     lastTimeUpdate := now }) }) ∧
    get_bot_data now s bot_uuid = Except.ok (e, s) := by
  have hg : get_bot_data now s bot_uuid = Except.ok (e, s) := by
    simp [get_bot_data, hpool]
  refine ⟨?_, hg⟩
  obtain ⟨wid, model, qq, aq, qe, ae, ltu⟩ := e
  simp only at hq ha
  subst hq ha
  simp [ask, hg, workerStep]

/-- Witness for C2: asking `"u1"` (resident and quiescent in
`wPoolState`) with a concrete engine. -/
theorem ask_protocol_witness :
    (wPoolState.pool.lookup "u1" = some wEntry ∧
      wEntry.questionsQueue = [] ∧ wEntry.answersQueue = []) ∧
    (ask 9 (fun q => q ++ "!") wPoolState "hi" "u1" =
        Except.ok ("hi" ++ "!",
          { wPoolState with pool := (dictSet wPoolState.pool "u1"
              { wEntry with questionsQueue := []
                            answersQueue := []
                            newQuestionEvent := false
                            newAnswerEvent := false
                            lastTimeUpdate := 9 }) }) ∧
      get_bot_data 9 wPoolState "u1" = Except.ok (wEntry, wPoolState)) :=
  ⟨⟨rfl, rfl, rfl⟩,
   ask_protocol 9 (fun q => q ++ "!") wPoolState "hi" "u1" wEntry rfl rfl rfl⟩

/-! ## Helper lemmas for the eviction sweep -/

theorem botKey_inj {a b : String} (h : "BOT-" ++ a = "BOT-" ++ b) :
    a = b := by
  have hd := congrArg String.data h
  simp [String.data_append] at hd
  exact String.ext hd

theorem isSome_mapSet (m : String → Option String) (k v x : String)
    (h : (m x).isSome) : ((mapSet m k v) x).isSome := by
  unfold mapSet
  by_cases hx : x = k <;> simp [hx, h]

theorem lookup_eq_none_of_not_mem_keys {α : Type} {l : List (String × α)}
    {k : String} (h : k ∉ l.map Prod.fst) : l.lookup k = none := by
  induction l with
  | nil => rfl
  | cons hd tl ih =>
    simp only [List.map_cons, List.mem_cons] at h
    push_neg at h
    have hb : (k == hd.1) = false := beq_eq_false_iff_ne.mpr h.1
    simp [List.lookup, hb, ih h.2]

/-- The specification of the `for` loop of `garbage_collector`: when every
entry due for eviction has its `BOT-` ownership key present and listed in
`SERVER-<ip>`, the loop completes, accumulates exactly the fresh entries
(idle strictly less than 300 seconds) in order, terminates every idle
entry's worker, deletes every idle entry's ownership key, rewrites every
survivor's ownership key to this instance, and touches no foreign
ownership key, no pool and no instance identity. -/
theorem gcLoop_ok (now : Nat) :
    ∀ (items : List (String × SessionEntry)) (acc : List (String × SessionEntry))
      (s : ManagerState),
    (items.map Prod.fst).Nodup →
    (∀ p ∈ items, 300 ≤ now - p.2.lastTimeUpdate →
      ((s.redisOwner ("BOT-" ++ p.1)).isSome ∧
        ("BOT-" ++ p.1) ∈ s.serverBots)) →
    ∃ s',
      gcLoop now s acc items =
        Except.ok (s', acc ++ items.filter
          (fun p => now - p.2.lastTimeUpdate < 300)) ∧
      s'.pool = s.pool ∧
      s'.instanceIp = s.instanceIp ∧
      s'.terminatedWorkers = s.terminatedWorkers ++
        (items.filter (fun p => 300 ≤ now - p.2.lastTimeUpdate)).map
          (fun p => p.2.workerId) ∧
      (∀ k, (∀ p ∈ items, ("BOT-" ++ p.1) ≠ k) →
        s'.redisOwner k = s.redisOwner k) ∧
      (∀ p ∈ items, 300 ≤ now - p.2.lastTimeUpdate →
        s'.redisOwner ("BOT-" ++ p.1) = none) ∧
      (∀ p ∈ items, now - p.2.lastTimeUpdate < 300 →
        s'.redisOwner ("BOT-" ++ p.1) = some s.instanceIp) := by
  intro items
  induction items with
  | nil =>
    intro acc s _ _
    exact ⟨s, by simp [gcLoop], rfl, rfl, by simp, fun _ _ => rfl,
      by simp, by simp⟩
  | cons hd tl ih =>
    intro acc s hnodup hpre
    obtain ⟨u, e⟩ := hd
    rw [List.map_cons, List.nodup_cons] at hnodup
    obtain ⟨hu, htl⟩ := hnodup
    have hkeyne : ∀ p ∈ tl, ("BOT-" ++ p.1) ≠ ("BOT-" ++ u) := by
      intro p hp hkey
      exact hu (List.mem_map.mpr ⟨p, hp, botKey_inj hkey⟩)
    by_cases hkeep : now - e.lastTimeUpdate < 300
    · have hcond : ¬ (now - e.lastTimeUpdate ≥ 300) := Nat.not_le.mpr hkeep
      have hpre' : ∀ p ∈ tl, 300 ≤ now - p.2.lastTimeUpdate →
          ((({ s with
                redisOwner := mapSet s.redisOwner ("BOT-" ++ u) s.instanceIp
                serverBots := s.serverBots ++ ["BOT-" ++ u]
              : ManagerState }).redisOwner ("BOT-" ++ p.1)).isSome ∧
            ("BOT-" ++ p.1) ∈
              ({ s with
                  redisOwner := mapSet s.redisOwner ("BOT-" ++ u) s.instanceIp
                  serverBots := s.serverBots ++ ["BOT-" ++ u]
                : ManagerState }).serverBots) := by
        intro p hp hidle
        obtain ⟨h1, h2⟩ := hpre p (List.mem_cons_of_mem _ hp) hidle
        exact ⟨isSome_mapSet _ _ _ _ h1, List.mem_append_left _ h2⟩
      obtain ⟨s', hrun, hpool, hip, hterm, hframe, hevict2, hkeep2⟩ :=
        ih (acc ++ [(u, e)])
          { s with
              redisOwner := mapSet s.redisOwner ("BOT-" ++ u) s.instanceIp
              serverBots := s.serverBots ++ ["BOT-" ++ u] }
          htl hpre'
      have hstep : gcLoop now s acc ((u, e) :: tl) =
          gcLoop now
            { s with
                redisOwner := mapSet s.redisOwner ("BOT-" ++ u) s.instanceIp
                serverBots := s.serverBots ++ ["BOT-" ++ u] }
            (acc ++ [(u, e)]) tl := by
        simp only [gcLoop, set_bot_in_instance_redis, if_pos hcond, if_true]
      refine ⟨s', ?_, hpool, hip, ?_, ?_, ?_, ?_⟩
      · rw [hstep, hrun]
        simp [List.filter_cons, hkeep]
      · rw [hterm]
        simp [List.filter_cons, hcond]
      · intro k hk
        have h1 := hframe k (fun p hp => hk p (List.mem_cons_of_mem _ hp))
        have h2 : mapSet s.redisOwner ("BOT-" ++ u) s.instanceIp k =
            s.redisOwner k := by
          have : k ≠ ("BOT-" ++ u) := fun h => hk (u, e) (List.mem_cons_self _ _) h.symm
          simp [mapSet, this]
        exact h1.trans h2
      · intro p hp hidle
        rcases List.mem_cons.mp hp with h | h
        · subst h
          exact absurd hidle (Nat.not_le.mpr hkeep)
        · exact hevict2 p h hidle
      · intro p hp hfresh
        rcases List.mem_cons.mp hp with h | h
        · subst h
          have h1 := hframe ("BOT-" ++ u) (fun q hq => hkeyne q hq)
          have h2 : mapSet s.redisOwner ("BOT-" ++ u) s.instanceIp
              ("BOT-" ++ u) = some s.instanceIp := by
            simp [mapSet]
          exact h1.trans h2
        · exact hkeep2 p h hfresh
    · have hidle : 300 ≤ now - e.lastTimeUpdate := Nat.not_lt.mp hkeep
      obtain ⟨hosome, hmem⟩ := hpre (u, e) (List.mem_cons_self _ _) hidle
      have hpre' : ∀ p ∈ tl, 300 ≤ now - p.2.lastTimeUpdate →
          ((({ s with
                redisOwner := mapDel s.redisOwner ("BOT-" ++ u)
                serverBots := s.serverBots.erase ("BOT-" ++ u)
                terminatedWorkers := s.terminatedWorkers ++ [e.workerId]
              : ManagerState }).redisOwner ("BOT-" ++ p.1)).isSome ∧
            ("BOT-" ++ p.1) ∈
              ({ s with
                  redisOwner := mapDel s.redisOwner ("BOT-" ++ u)
                  serverBots := s.serverBots.erase ("BOT-" ++ u)
                  terminatedWorkers := s.terminatedWorkers ++ [e.workerId]
                : ManagerState }).serverBots) := by
        intro p hp hidle'
        obtain ⟨h1, h2⟩ := hpre p (List.mem_cons_of_mem _ hp) hidle'
        refine ⟨?_, ?_⟩
        · have : mapDel s.redisOwner ("BOT-" ++ u) ("BOT-" ++ p.1) =
              s.redisOwner ("BOT-" ++ p.1) := by
            simp [mapDel, hkeyne p hp]
          rw [show ({ s with
                redisOwner := mapDel s.redisOwner ("BOT-" ++ u)
                serverBots := s.serverBots.erase ("BOT-" ++ u)
                terminatedWorkers := s.terminatedWorkers ++ [e.workerId]
              : ManagerState }).redisOwner =
              mapDel s.redisOwner ("BOT-" ++ u) from rfl, this]
          exact h1
        · exact (List.mem_erase_of_ne (hkeyne p hp)).mpr h2
      obtain ⟨s', hrun, hpool, hip, hterm, hframe, hevict2, hkeep2⟩ :=
        ih acc
          { s with
              redisOwner := mapDel s.redisOwner ("BOT-" ++ u)
              serverBots := s.serverBots.erase ("BOT-" ++ u)
              terminatedWorkers := s.terminatedWorkers ++ [e.workerId] }
          htl hpre'
      have hstep : gcLoop now s acc ((u, e) :: tl) =
          gcLoop now
            { s with
                redisOwner := mapDel s.redisOwner ("BOT-" ++ u)
                serverBots := s.serverBots.erase ("BOT-" ++ u)
                terminatedWorkers := s.terminatedWorkers ++ [e.workerId] }
            acc tl := by
        simp only [gcLoop, remove_bot_instance_redis, hosome, hidle,
          not_true, if_neg, if_true, hmem, if_pos]
        simp [hidle, hmem]
      refine ⟨s', ?_, hpool, hip, ?_, ?_, ?_, ?_⟩
      · rw [hstep, hrun]
        simp [List.filter_cons, hkeep]
      · rw [hterm]
        simp [List.filter_cons, hidle]
      · intro k hk
        have h1 := hframe k (fun p hp => hk p (List.mem_cons_of_mem _ hp))
        have h2 : mapDel s.redisOwner ("BOT-" ++ u) k = s.redisOwner k := by
          have : k ≠ ("BOT-" ++ u) := fun h => hk (u, e) (List.mem_cons_self _ _) h.symm
          simp [mapDel, this]
        exact h1.trans h2
      · intro p hp hidle'
        rcases List.mem_cons.mp hp with h | h
        · subst h
          have h1 := hframe ("BOT-" ++ u) (fun q hq => hkeyne q hq)
          have h2 : mapDel s.redisOwner ("BOT-" ++ u) ("BOT-" ++ u) = none := by
            simp [mapDel]
          exact h1.trans h2
        · exact hevict2 p h hidle'
      · intro p hp hfresh
        rcases List.mem_cons.mp hp with h | h
        · subst h
          exact absurd hfresh hkeep
        · exact hkeep2 p h hfresh

/-- C3: one sweep of `garbage_collector` (with every idle entry's
ownership key present and listed, and pool keys unique) keeps exactly the
entries idle for strictly less than 5 minutes, refreshing each survivor's
ownership key to this instance; every other entry has its ownership key
deleted, its worker terminated, and is absent from the pool afterwards;
the pool ends up equal to the surviving subset and the timer is
re-armed. -/
theorem garbage_collector_keeps_fresh_evicts_idle (now : Nat)
    (usage_memory : ℚ) (s : ManagerState)
    (hnodup : (s.pool.map Prod.fst).Nodup)
    (hpre : ∀ p ∈ s.pool, 300 ≤ now - p.2.lastTimeUpdate →
      ((s.redisOwner ("BOT-" ++ p.1)).isSome ∧
        ("BOT-" ++ p.1) ∈ s.serverBots)) :
    ∃ s', garbage_collector now usage_memory s = (s', true) ∧
      s'.pool = s.pool.filter (fun p => now - p.2.lastTimeUpdate < 300) ∧
      (∀ p ∈ s.pool, 300 ≤ now - p.2.lastTimeUpdate →
        s'.redisOwner ("BOT-" ++ p.1) = none ∧
        s'.pool.lookup p.1 = none ∧
        p.2.workerId ∈ s'.terminatedWorkers) ∧
      (∀ p ∈ s.pool, now - p.2.lastTimeUpdate < 300 →
        s'.redisOwner ("BOT-" ++ p.1) = some s.instanceIp) := by
  obtain ⟨s1, hrun, hpool, hip, hterm, hframe, hevict, hkeepc⟩ :=
    gcLoop_ok now s.pool [] { s with aliveStamp := now } hnodup hpre
  refine ⟨{ s1 with
      pool := s.pool.filter (fun p => now - p.2.lastTimeUpdate < 300)
      availables :=
        set_usage_memory s1.instanceIp usage_memory s1.availables },
    ?_, rfl, ?_, ?_⟩
  · simp [garbage_collector, hrun]
  · intro p hp hidle
    refine ⟨hevict p hp hidle, ?_, ?_⟩
    · have hnot : p.1 ∉
          (s.pool.filter
            (fun q => now - q.2.lastTimeUpdate < 300)).map Prod.fst := by
        intro hmemk
        obtain ⟨q, hq, hqk⟩ := List.mem_map.mp hmemk
        have hql : q ∈ s.pool := List.mem_of_mem_filter hq
        have hqkeep : now - q.2.lastTimeUpdate < 300 := by
          have := (List.mem_filter.mp hq).2
          simpa using this
        have hqp : q = p := List.inj_on_of_nodup_map hnodup hql hp hqk
        subst hqp
        exact absurd hqkeep (Nat.not_lt.mpr hidle)
      exact lookup_eq_none_of_not_mem_keys hnot
    · have : s1.terminatedWorkers = s.terminatedWorkers ++
          (s.pool.filter
            (fun q => 300 ≤ now - q.2.lastTimeUpdate)).map
            (fun q => q.2.workerId) := hterm
      rw [show ({ s1 with
          pool := s.pool.filter (fun q => now - q.2.lastTimeUpdate < 300)
          availables :=
            set_usage_memory s1.instanceIp usage_memory s1.availables
          : ManagerState }).terminatedWorkers = s1.terminatedWorkers from rfl,
        this]
      refine List.mem_append_right _ (List.mem_map.mpr ⟨p, ?_, rfl⟩)
      exact List.mem_filter.mpr ⟨hp, decide_eq_true hidle⟩
  · intro p hp hfresh
    exact hkeepc p hp hfresh

/-- A pool entry idle since time 0. -/
def gcEntryIdle : SessionEntry :=
  { workerId := 1
    model := "m1"
    questionsQueue := []
    answersQueue := []
    newQuestionEvent := false
    newAnswerEvent := false
    lastTimeUpdate := 0 }

/-- A pool entry last active at time 350. -/
def gcEntryFresh : SessionEntry :=
  { gcEntryIdle with workerId := 2, lastTimeUpdate := 350 }

/-- A manager state with one idle session `"u1"` (claimed in redis) and
one fresh session `"u2"`. -/
def gcState : ManagerState :=
  { pool := [("u1", gcEntryIdle), ("u2", gcEntryFresh)]
    redisBots := fun _ => none
    redisOwner := fun k => if k = "BOT-u1" then some "10.0.0.1" else none
    serverBots := ["BOT-u1"]
    availables := []
    aliveStamp := 0
    origin := fun _ => none
    nextWorkerId := 3
    instanceIp := "10.0.0.1"
    terminatedWorkers := [] }

/-- Witness for C3: sweeping `gcState` at time 400 evicts `"u1"`
(idle 400 seconds) and keeps `"u2"` (idle 50 seconds). -/
theorem garbage_collector_keeps_fresh_evicts_idle_witness :
    ((gcState.pool.map Prod.fst).Nodup ∧
      (∀ p ∈ gcState.pool, 300 ≤ 400 - p.2.lastTimeUpdate →
        ((gcState.redisOwner ("BOT-" ++ p.1)).isSome ∧
          ("BOT-" ++ p.1) ∈ gcState.serverBots))) ∧
    (∃ s', garbage_collector 400 50 gcState = (s', true) ∧
      s'.pool = gcState.pool.filter
        (fun p => 400 - p.2.lastTimeUpdate < 300) ∧
      (∀ p ∈ gcState.pool, 300 ≤ 400 - p.2.lastTimeUpdate →
        s'.redisOwner ("BOT-" ++ p.1) = none ∧
        s'.pool.lookup p.1 = none ∧
        p.2.workerId ∈ s'.terminatedWorkers) ∧
      (∀ p ∈ gcState.pool, 400 - p.2.lastTimeUpdate < 300 →
        s'.redisOwner ("BOT-" ++ p.1) = some gcState.instanceIp)) :=
  ⟨⟨by decide, by decide⟩,
   garbage_collector_keeps_fresh_evicts_idle 400 50 gcState (by decide)
     (by decide)⟩

/-- A session entry idle since time 20 with worker 9. -/
def cexEntryU2 : SessionEntry :=
  { gcEntryIdle with workerId := 9, lastTimeUpdate := 20 }

/-- A manager state whose first pool entry `"u1"` is idle but has no
`BOT-u1` ownership key in redis (say it already expired), and whose
second entry `"u2"` is also idle and properly claimed. -/
def cexState : ManagerState :=
  { pool := [("u1", gcEntryIdle), ("u2", cexEntryU2)]
    redisBots := fun _ => none
    redisOwner := fun k => if k = "BOT-u2" then some "10.0.0.1" else none
    serverBots := ["BOT-u2"]
    availables := []
    aliveStamp := 0
    origin := fun _ => none
    nextWorkerId := 10
    instanceIp := "10.0.0.1"
    terminatedWorkers := [] }

/-- Counterexample to C5 as stated: at `cexState` the eviction of `"u1"`
raises (its ownership key is absent, so the redis `delete` is falsy), and
the sweep neither continues with the remaining idle session `"u2"` (its
ownership key survives, its worker is not terminated, the pool is
untouched) nor re-arms the scheduler. -/
theorem garbage_collector_error_aborts_sweep_cex :
    (garbage_collector 400 50 cexState).2 = false ∧
    (garbage_collector 400 50 cexState).1.redisOwner "BOT-u2" =
      some "10.0.0.1" ∧
    (garbage_collector 400 50 cexState).1.pool = cexState.pool ∧
    (garbage_collector 400 50 cexState).1.terminatedWorkers = [] := by
  refine ⟨rfl, rfl, rfl, rfl⟩

/-- C5 (amended): when evicting an individual session raises — here the
first pool entry, idle past the threshold, whose ownership key is absent
so the redis `delete` is falsy — the sweep aborts instead of continuing:
the exception propagates, the remaining sessions are not processed, the
state is exactly as it was when the sweep began (only the alive stamp was
refreshed), and the scheduler is not re-armed. -/
theorem garbage_collector_error_aborts_sweep (now : Nat)
    (usage_memory : ℚ) (s : ManagerState) (u : String) (e : SessionEntry)
    (rest : List (String × SessionEntry))
    (hpool : s.pool = (u, e) :: rest)
    (hidle : 300 ≤ now - e.lastTimeUpdate)
    (hmiss : s.redisOwner ("BOT-" ++ u) = none) :
    garbage_collector now usage_memory s =
      ({ s with aliveStamp := now }, false) := by
  simp [garbage_collector, gcLoop, hpool, remove_bot_instance_redis,
    hmiss, hidle]

/-- Witness for C5's amended statement at `cexState`. -/
theorem garbage_collector_error_aborts_sweep_witness :
    (cexState.pool = ("u1", gcEntryIdle) :: [("u2", cexEntryU2)] ∧
      300 ≤ 400 - gcEntryIdle.lastTimeUpdate ∧
      cexState.redisOwner ("BOT-" ++ "u1") = none) ∧
    garbage_collector 400 50 cexState =
      ({ cexState with aliveStamp := 400 }, false) :=
  ⟨⟨rfl, by decide, rfl⟩,
   garbage_collector_error_aborts_sweep 400 50 cexState "u1" gcEntryIdle
     [("u2", cexEntryU2)] rfl (by decide) rfl⟩

/-- A manager state with a single fresh, properly claimed session whose
key appears exactly once in the `SERVER-<ip>` list. -/
def dupState : ManagerState :=
  { pool := [("u1", gcEntryFresh)]
    redisBots := fun _ => none
    redisOwner := fun k => if k = "BOT-u1" then some "10.0.0.1" else none
    serverBots := ["BOT-u1"]
    availables := []
    aliveStamp := 0
    origin := fun _ => none
    nextWorkerId := 3
    instanceIp := "10.0.0.1"
    terminatedWorkers := [] }

/-- C6 (failing input): refreshing the surviving session `"u1"` during
one sweep appends its key to the `SERVER-<ip>` list again, so the
per-instance session list holds `BOT-u1` twice after a sweep that merely
kept the session — the list does not behave as a set. -/
theorem garbage_collector_duplicates_server_list :
    (garbage_collector 400 50 dupState).1.serverBots =
      ["BOT-u1", "BOT-u1"] ∧
    (garbage_collector 400 50 dupState).1.serverBots.count "BOT-u1" = 2 := by
  refine ⟨rfl, by decide⟩

end BothubNlp
